import Mathlib

/-!
# Print orchestration pipeline of go-print-server

A shallow embedding of `internal/controller/print.go`: the Document Generator
(`generateTypstDocument`), the Print Orchestrator (`printDocument`), the Batch
Dispatcher (`printDocuments`), the fetch-to-Document mapping (`downloadFile`) and the
batch request handler (`urls`).

External collaborators (preset and printer registries, printer client, fetcher, mime
table, file system, typst compiler, logger) are fields of an environment `Env σ`; the
stateful ones are transformers of an arbitrary collaborator state `σ`.  Every
collaborator call is recorded, with its arguments, in an append-only trace, so that
statements about which calls happen, how often and in which order can be made.
Functions of `print.go` that return a Go `(value, error)` pair return a pair here, a
nil error being `none`; `downloadFile`, whose pointer result is nil exactly when its
error is not, returns an `Except`.  `int` is the 64-bit integer type.
-/

namespace PrintServer

/-! ## Go runtime values -/

/-- A byte of a Go byte slice or string. -/
abbrev Byte := UInt8

/-- The byte sequence of a Go string (`[]byte(s)`, `bytes.NewBufferString(s).Bytes()`):
its UTF-8 encoding. -/
def stringBytes (s : String) : List Byte :=
  s.data.flatMap String.utf8EncodeChar

/-- Go `error` values.  `errorString` is what `errors.New` and `fmt.Errorf` without a
`%w` verb build (text only); `wrapError` is what `fmt.Errorf` with `%w` builds (text
and the wrapped error). -/
inductive GoError where
  | errorString (s : String)
  | wrapError (msg : String) (err : GoError)
  deriving DecidableEq, Repr

/-- The method `Error()`: the text of an error. -/
def GoError.Error : GoError → String
  | .errorString s => s
  | .wrapError msg _ => msg

/-- The function `errors.Unwrap`: the wrapped error, if the error wraps one. -/
def GoError.Unwrap : GoError → Option GoError
  | .errorString _ => none
  | .wrapError _ err => some err

/-- The error itself followed by everything reachable from it by repeated `Unwrap`
(the chain `errors.Is` and `errors.As` walk). -/
def GoError.chain : GoError → List GoError
  | .errorString s => [.errorString s]
  | .wrapError msg err => .wrapError msg err :: err.chain

/-- The call `fmt.Errorf(pfx + "%v", err)`: the cause is formatted into the text and
is not kept. -/
def ErrorfV (pfx : String) (err : GoError) : GoError :=
  .errorString (pfx ++ err.Error)

/-- The call `fmt.Errorf(pfx + "%w", err)`: the cause is formatted into the text and
kept as the wrapped error. -/
def ErrorfW (pfx : String) (err : GoError) : GoError :=
  .wrapError (pfx ++ err.Error) err

/-- A byte stream handed out by the fetcher (an `io.ReadCloser`): the bytes it
delivers, then end of file (`none`) or a read error. -/
structure Stream where
  data : List Byte
  err : Option GoError
  deriving DecidableEq, Repr

/-- A `bytes.Buffer` that has only been written to: its contents and the unused
capacity behind them (`cap(buf) - len(buf)`). -/
structure Buffer where
  buf : List Byte
  spare : Nat
  deriving DecidableEq, Repr

/-- The zero `bytes.Buffer` (`var w bytes.Buffer`). -/
def Buffer.zero : Buffer := ⟨[], 0⟩

/-- The capacity `cap(b.buf)` of the buffer's slice. -/
def Buffer.cap (b : Buffer) : Nat := b.buf.length + b.spare

/-- The method `Len()`: the number of bytes of the unread portion. -/
def Buffer.Len (b : Buffer) : Nat := b.buf.length

/-- The method `Available()`: how many bytes are unused in the buffer,
`cap(b.buf) - len(b.buf)`. -/
def Buffer.Available (b : Buffer) : Nat := b.cap - b.buf.length

/-- The method `ReadFrom(r)`: appends everything `r` delivers and returns the read
error of `r`, if any.  `spare` is the unused capacity the growth policy of the Go
runtime leaves behind. -/
def Buffer.ReadFrom (b : Buffer) (r : Stream) (spare : Nat) : Buffer × Option GoError :=
  (⟨b.buf ++ r.data, spare⟩, r.err)

/-- The `io.Reader` values the controller stores in `Document.Body`. -/
inductive Reader where
  | nil
  | stream (s : Stream)
  | buffer (b : Buffer)
  deriving DecidableEq, Repr

/-- The bytes a reader delivers. -/
def Reader.bytes : Reader → List Byte
  | .nil => []
  | .stream s => s.data
  | .buffer b => b.buf

/-- The number of bytes available in a reader. -/
def Reader.available (r : Reader) : Nat := r.bytes.length

/-! ## Data model -/

/-- The type `printer.Document`. -/
structure Document where
  Body : Reader
  Size : Int
  Name : String
  MimeType : String
  deriving DecidableEq, Repr

/-- The zero value `printer.Document{}`. -/
def Document.zero : Document := ⟨.nil, 0, "", ""⟩

/-- Print-protocol job attributes (`map[string]any`), opaque to the controller. -/
abbrev JobAttributes := List (String × String)

/-- The template part of a preset (`config.Preset.TypstTemplate`). -/
structure TypstTemplate where
  Content : String
  WorkingDirectory : String
  deriving DecidableEq, Repr

/-- The type `config.Preset`, with the fields the controller reads. -/
structure Preset where
  Printer : String
  JobAttributes : JobAttributes
  TypstTemplate : TypstTemplate
  deriving DecidableEq, Repr

/-- A printer handle as resolved by the printer registry; `Name` is what `GetName()`
returns. -/
structure Printer where
  Name : String
  deriving DecidableEq, Repr

/-- An open temporary file (`*os.File`); `Name` is what `Name()` returns. -/
structure File where
  Name : String
  deriving DecidableEq, Repr

/-- What the fetcher returns for a download: the body and the declared content
length. -/
structure FetchedFile where
  Body : Stream
  ContentLength : Int
  deriving DecidableEq, Repr

/-- The value map handed to `typst.InjectValues`. -/
structure InjectedValues where
  document_path : String
  document_name : String
  printer_name : String
  deriving DecidableEq, Repr

/-- The constant `DefaultWorkingDirectory`. -/
def DefaultWorkingDirectory : String := "./"

/-- The constant `DefaultMimeType`. -/
def DefaultMimeType : String := "application/pdf"

/-- Modelled from the spec: the constant `printer.ApplicationPdf` of the printer
package, the PDF mime type every rendered or fetched Document is given. -/
def ApplicationPdf : String := "application/pdf"

/-- Modelled from the spec: the constant `typst.OutputFormatPDF`, the output format
requested from the template compiler. -/
def OutputFormatPDF : String := "pdf"

/-! ## Collaborators and trace -/

/-- One recorded call. -/
inductive Event where
  | callPrintDocument (doc : Document) (presetName : String)
  | callGenerate (doc : Document) (preset : Preset)
  | getPreset (name : String)
  | getPrinter (id : String)
  | createTemp (dir : String) (pattern : String)
  | fileWrite (file : File) (bytes : List Byte)
  | fileClose (file : File)
  | compile (workingDirectory : String) (input : List Byte) (format : String)
  | debug (msg : String) (tag : String)
  | logError (err : GoError) (args : List String)
  | printJob (p : Printer) (doc : Document) (attrs : JobAttributes)
  | download (url : String) (cookies : String)
  deriving DecidableEq, Repr

/-- The external collaborators of the controller. -/
structure Env (σ : Type) where
  /-- The method `PrinterContext.getPreset`. -/
  getPreset : String → σ → Except GoError Preset × σ
  /-- The method `PrinterContext.getPrinter`. -/
  getPrinter : String → σ → Except GoError Printer × σ
  /-- The submit operation `PrintJob` of a printer handle. -/
  PrintJob : Printer → Document → JobAttributes → σ → Except GoError Int × σ
  /-- The function `mime.ExtensionsByType`. -/
  ExtensionsByType : String → Except GoError (List String)
  /-- The function `os.CreateTemp`. -/
  CreateTemp : String → String → σ → Except GoError File × σ
  /-- The method `(*os.File).Write`. -/
  Write : File → List Byte → σ → Except GoError Nat × σ
  /-- The method `(*os.File).Close`. -/
  Close : File → σ → σ
  /-- The function `typst.InjectValues`: the bytes it writes for a value map. -/
  InjectValues : InjectedValues → Except GoError (List Byte)
  /-- The method `typst.CLI.Compile`: for a working directory, input and format, the
  state of the output buffer after the compiler has written to it. -/
  Compile : String → List Byte → String → σ → Except GoError Buffer × σ
  /-- The method `fetcher.Fetcher.DownloadFile`. -/
  DownloadFile : String → String → σ → Except GoError FetchedFile × σ
  /-- Unused capacity the runtime leaves in a buffer that `ReadFrom` filled with the
  given number of bytes. -/
  readFromSpare : Nat → Nat

/-- Collaborator state together with the trace of calls made so far. -/
structure World (σ : Type) where
  st : σ
  trace : List Event
  deriving DecidableEq

/-- Record an event that does not change the collaborator state. -/
def World.emit {σ : Type} (w : World σ) (e : Event) : World σ :=
  ⟨w.st, w.trace ++ [e]⟩

/-- Record an event and run the collaborator call it stands for. -/
def World.call {σ α : Type} (w : World σ) (e : Event) (f : σ → α × σ) : α × World σ :=
  ((f w.st).1, ⟨(f w.st).2, w.trace ++ [e]⟩)

/-! ## The controller -/

/-- The method `printRoutes.generateTypstDocument` (print.go, lines 39-91). -/
def generateTypstDocument {σ : Type} (env : Env σ) (doc : Document) (preset : Preset)
    (w : World σ) : (Document × Option GoError) × World σ :=
  let w0 := w.emit (.callGenerate doc preset)
  let workingDirectory :=
    if preset.TypstTemplate.WorkingDirectory = "" then DefaultWorkingDirectory
    else preset.TypstTemplate.WorkingDirectory
  let content := stringBytes preset.TypstTemplate.Content
  -- Store the print file as a temporary file
  let extension : Except GoError String :=
    if doc.MimeType ≠ "" then
      match env.ExtensionsByType doc.MimeType with
      | .error err =>
        .error (ErrorfV ("failed to get extension for mime type " ++ doc.MimeType ++ ": ") err)
      | .ok extensions =>
        match extensions with
        | first :: _ => .ok first
        | [] => .ok ".pdf"
    else .ok ".pdf"
  match extension with
  | .error err => ((Document.zero, some err), w0)
  | .ok extension =>
    match w0.call (.createTemp workingDirectory ("doc-*" ++ extension))
        (env.CreateTemp workingDirectory ("doc-*" ++ extension)) with
    | (.error err, w1) =>
      ((Document.zero, some (ErrorfV "failed to create temp file: " err)), w1)
    | (.ok file, w1) =>
      -- the statements after `defer file.Close()`
      let r : (Document × Option GoError) × World σ :=
        match w1.call (.fileWrite file content) (env.Write file content) with
        | (.error err, w2) =>
          ((Document.zero, some (ErrorfV "failed to write document: " err)), w2)
        | (.ok _, w2) =>
          match env.InjectValues ⟨file.Name, doc.Name, preset.Printer⟩ with
          | .error err =>
            ((Document.zero,
              some (ErrorfV "failed to inject values into document: " err)), w2)
          | .ok injected =>
            match w2.call (.compile workingDirectory (content ++ injected) OutputFormatPDF)
                (env.Compile workingDirectory (content ++ injected) OutputFormatPDF) with
            | (.error err, w3) =>
              ((Document.zero, some (ErrorfV "failed to compile document: " err)), w3)
            | (.ok out, w3) =>
              if out.Available = 0 then
                ((Document.zero, some (.errorString "no output was written")), w3)
              else
                ((⟨.buffer out, out.Len, doc.Name, ApplicationPdf⟩, none), w3)
      (r.1, (r.2.call (.fileClose file) (fun s => ((), env.Close file s))).2)

/-- The method `printRoutes.printDocument` (print.go, lines 93-118). -/
def printDocument {σ : Type} (env : Env σ) (doc : Document) (presetName : String)
    (w : World σ) : (Int × Option GoError) × World σ :=
  let w0 := w.emit (.callPrintDocument doc presetName)
  match w0.call (.getPreset presetName) (env.getPreset presetName) with
  | (.error err, w1) => ((0, some err), w1)
  | (.ok preset, w1) =>
    match w1.call (.getPrinter preset.Printer) (env.getPrinter preset.Printer) with
    | (.error err, w2) => ((0, some err), w2)
    | (.ok p, w2) =>
      let generated : (Document × Option GoError) × World σ :=
        if preset.TypstTemplate.Content ≠ "" then generateTypstDocument env doc preset w2
        else ((doc, none), w2)
      match generated with
      | ((_, some err), w3) => ((0, some err), w3)
      | ((doc1, none), w3) =>
        let w4 := w3.emit (.debug ("Print file " ++ doc1.Name ++ " on printer " ++ p.Name
          ++ " with preset " ++ presetName ++ ".") "http - print - url")
        match w4.call (.printJob p doc1 preset.JobAttributes)
            (env.PrintJob p doc1 preset.JobAttributes) with
        | (.error err, w5) => ((0, some (ErrorfW "IPP error: " err)), w5)
        | (.ok id, w5) => ((id, none), w5)

/-- The type `document`: one entry of a batch. -/
structure document where
  Doc : Document
  Preset : String
  deriving DecidableEq, Repr

/-- The loop of `printDocuments`: `ids` is the slice built so far. -/
def printDocumentsLoop {σ : Type} (env : Env σ) :
    List document → List Int → World σ → (List Int × Option GoError) × World σ
  | [], ids, w => ((ids, none), w)
  | doc :: rest, ids, w =>
    match printDocument env doc.Doc doc.Preset w with
    | ((_, some err), w1) => (([], some err), w1)
    | ((id, none), w1) => printDocumentsLoop env rest (ids ++ [id]) w1

/-- The method `printRoutes.printDocuments` (print.go, lines 125-135); the nil slice
is the empty list. -/
def printDocuments {σ : Type} (env : Env σ) (docs : List document) (w : World σ) :
    (List Int × Option GoError) × World σ :=
  printDocumentsLoop env docs [] w

/-- The method `printRoutes.downloadFile` (print.go, lines 137-162).  The returned
pointer is nil exactly when the error is not, so the pair is an `Except`. -/
def downloadFile {σ : Type} (env : Env σ) (url : String) (cookies : String)
    (w : World σ) : Except GoError Document × World σ :=
  match w.call (.download url cookies) (env.DownloadFile url cookies) with
  | (.error err, w1) => (.error err, w1)
  | (.ok file, w1) =>
    let doc : Document := ⟨.nil, 0, "CloudPrintDocument", ApplicationPdf⟩
    if file.ContentLength > 0 then
      (.ok ⟨.stream file.Body, file.ContentLength, doc.Name, doc.MimeType⟩, w1)
    else
      match Buffer.ReadFrom Buffer.zero file.Body (env.readFromSpare file.Body.data.length) with
      | (_, some err) => (.error err, w1)
      | (buf, none) => (.ok ⟨.buffer buf, buf.Len, doc.Name, doc.MimeType⟩, w1)

/-- The type `urlDocument`. -/
structure urlDocument where
  Url : String
  Preset : String
  deriving DecidableEq, Repr

/-- The type `urlsPrintRequest`. -/
structure urlsPrintRequest where
  Documents : List urlDocument
  deriving DecidableEq, Repr

/-- What a handler writes to the HTTP response: the JSON error body of
`errorResponse`, or the body `urlsPrintResponse` with its `JobIDs`. -/
inductive Response where
  | error (code : Nat) (msg : String)
  | urlsPrintResponse (code : Nat) (JobIDs : List Int)
  deriving DecidableEq, Repr

/-- Modelled from the spec: the helper `errorResponse` of the controller package,
which answers with the given status and a body holding only the message. -/
def errorResponse (code : Nat) (msg : String) : Response :=
  .error code msg

/-- The constant `http.StatusOK`. -/
def StatusOK : Nat := 200

/-- The constant `http.StatusBadRequest`. -/
def StatusBadRequest : Nat := 400

/-- The constant `http.StatusInternalServerError`. -/
def StatusInternalServerError : Nat := 500

/-- The loop of `urls`: `jobIDs` is the slice built so far. -/
def urlsLoop {σ : Type} (env : Env σ) (cookies : String) :
    List urlDocument → List Int → World σ → Response × World σ
  | [], jobIDs, w => (.urlsPrintResponse StatusOK jobIDs, w)
  | doc :: rest, jobIDs, w =>
    match downloadFile env doc.Url cookies w with
    | (.error err, w1) =>
      (errorResponse StatusInternalServerError "could not download file",
        w1.emit (.logError err ["http - print - url", doc.Url]))
    | (.ok printDoc, w1) =>
      match printDocument env printDoc doc.Preset w1 with
      | ((_, some err), w2) =>
        (errorResponse StatusInternalServerError ("print error: " ++ err.Error),
          w2.emit (.logError err ["http - print - url"]))
      | ((jobID, none), w2) => urlsLoop env cookies rest (jobIDs ++ [jobID]) w2

/-- The handler `printRoutes.urls` (print.go, lines 215-247).  `cookies` is the
forwarded-cookie header of the request and `request` the outcome of
`ShouldBindJSON`. -/
def urls {σ : Type} (env : Env σ) (cookies : String)
    (request : Except GoError urlsPrintRequest) (w : World σ) : Response × World σ :=
  match request with
  | .error err =>
    (errorResponse StatusBadRequest "invalid request body",
      w.emit (.logError err ["http - print - url"]))
  | .ok request => urlsLoop env cookies request.Documents [] w


/-! ## Observations on traces -/

/-- The events a call emitted: the part of the trace after the part it started from. -/
def emitted {σ : Type} (w w1 : World σ) : List Event :=
  w1.trace.drop w.trace.length

/-- Events only the Document Generator records. -/
def Event.isGenerator : Event → Bool
  | .callGenerate _ _ => true
  | .createTemp _ _ => true
  | .fileWrite _ _ => true
  | .fileClose _ => true
  | .compile _ _ _ => true
  | _ => false

/-- The fetch and submit calls of a trace, in order. -/
inductive IOCall where
  | fetch (url : String)
  | submit
  deriving DecidableEq, Repr

/-- The fetch or submit call an event stands for, if any. -/
def Event.toIOCall : Event → Option IOCall
  | .download url _ => some (.fetch url)
  | .printJob _ _ _ => some .submit
  | _ => none

/-- The sequence of fetch and submit calls recorded in a trace. -/
def ioTrace (t : List Event) : List IOCall :=
  t.filterMap Event.toIOCall

/-- The number of `printDocument` invocations recorded in a trace. -/
def invocations (t : List Event) : Nat :=
  t.countP (fun e => match e with
    | .callPrintDocument _ _ => true
    | _ => false)

/-- The world in which `printDocument` stands once preset and printer are resolved. -/
def resolvedWorld {σ : Type} (w : World σ) (doc : Document) (presetName : String)
    (preset : Preset) (s2 : σ) : World σ :=
  ⟨s2, w.trace ++ [.callPrintDocument doc presetName, .getPreset presetName,
    .getPrinter preset.Printer]⟩

/-- The last statements of `printDocument` (print.go, lines 110-117) as a function of
the document that reaches them: debug trace, `PrintJob`, wrapping of its error. -/
def submitStep {σ : Type} (env : Env σ) (p : Printer) (preset : Preset)
    (presetName : String) (doc1 : Document) (w3 : World σ) :
    (Int × Option GoError) × World σ :=
  match env.PrintJob p doc1 preset.JobAttributes w3.st with
  | (.error err, s) =>
    ((0, some (ErrorfW "IPP error: " err)),
      ⟨s, w3.trace ++ [.debug ("Print file " ++ doc1.Name ++ " on printer " ++ p.Name
        ++ " with preset " ++ presetName ++ ".") "http - print - url",
        .printJob p doc1 preset.JobAttributes]⟩)
  | (.ok id, s) =>
    ((id, none),
      ⟨s, w3.trace ++ [.debug ("Print file " ++ doc1.Name ++ " on printer " ++ p.Name
        ++ " with preset " ++ presetName ++ ".") "http - print - url",
        .printJob p doc1 preset.JobAttributes]⟩)

/-- Fail-fast traversal in the words of the specification: entries are processed
strictly in input order, one at a time; the first failure aborts and is returned with
no job IDs; successful completion yields the job IDs in input order. -/
def failFastTraverse {σ α : Type} (f : α → World σ → (Int × Option GoError) × World σ) :
    List α → World σ → (List Int × Option GoError) × World σ
  | [], w => (([], none), w)
  | x :: xs, w =>
    match f x w with
    | ((_, some err), w1) => (([], some err), w1)
    | ((id, none), w1) =>
      match failFastTraverse f xs w1 with
      | ((_, some err), w2) => (([], some err), w2)
      | ((ids, none), w2) => ((id :: ids, none), w2)

/-! ## A concrete installation -/

/-- A concrete installation on which the theorems are instantiated: a printer
"office" whose client numbers the jobs it accepts, the presets "plain" (no template)
and "letter" (templated), a small mime table, a file system and fetcher that always
succeed, and a compiler whose outcome is `compiled`.  The collaborator state is the
number of jobs accepted so far. -/
def demoEnv (compiled : Except GoError Buffer) (fetched : FetchedFile) : Env Nat where
  getPreset := fun name s =>
    if name = "plain" then (.ok ⟨"office", [("copies", "1")], ⟨"", ""⟩⟩, s)
    else if name = "letter" then (.ok ⟨"office", [("media", "a4")], ⟨"#page", ""⟩⟩, s)
    else (.error (.errorString ("unknown preset " ++ name)), s)
  getPrinter := fun id s =>
    if id = "office" then (.ok ⟨"Office"⟩, s)
    else (.error (.errorString ("unknown printer " ++ id)), s)
  PrintJob := fun _ _ _ s => (.ok (Int.ofNat (s + 1)), s + 1)
  ExtensionsByType := fun m =>
    if m = "application/pdf" then .ok [".pdf"]
    else if m = "image/jpeg" then .ok [".jpe", ".jpeg", ".jpg"]
    else .ok []
  CreateTemp := fun dir _ s => (.ok ⟨dir ++ "doc-1"⟩, s)
  Write := fun _ bytes s => (.ok bytes.length, s)
  Close := fun _ s => s
  InjectValues := fun v => .ok (stringBytes v.document_name)
  Compile := fun _ _ _ s => (compiled, s)
  DownloadFile := fun _ _ s => (.ok fetched, s)
  readFromSpare := fun _ => 512

/-- A fetched file of three bytes with an accurate content length. -/
def demoFetched : FetchedFile := ⟨⟨[1, 2, 3], none⟩, 3⟩

/-- A compiler outcome of four bytes ("%PDF") in a buffer with room to spare. -/
def demoCompiled : Except GoError Buffer := .ok ⟨[37, 80, 68, 70], 508⟩

/-- A JPEG document of three bytes. -/
def demoDoc : Document := ⟨.stream ⟨[1, 2, 3], none⟩, 3, "scan", "image/jpeg"⟩

/-- The preset "plain" of the concrete installation. -/
def plainPreset : Preset := ⟨"office", [("copies", "1")], ⟨"", ""⟩⟩

/-- The preset "letter" of the concrete installation. -/
def letterPreset : Preset := ⟨"office", [("media", "a4")], ⟨"#page", ""⟩⟩

/-- The world before any call: no job accepted, empty trace. -/
def world0 : World Nat := ⟨0, []⟩

/-! ## Lemmas on the Document Generator and the Print Orchestrator -/

/-- The Document Generator only appends to the trace, and only events of its own. -/
theorem generate_trace {σ : Type} (env : Env σ) (doc : Document) (preset : Preset)
    (w : World σ) :
    (generateTypstDocument env doc preset w).2.trace =
        w.trace ++ emitted w (generateTypstDocument env doc preset w).2 ∧
      ∀ e ∈ emitted w (generateTypstDocument env doc preset w).2, e.isGenerator = true := by
  unfold generateTypstDocument
  simp only [World.call, World.emit, emitted]
  repeat' split
  all_goals simp only [Prod.mk.injEq] at *
  all_goals try casesm* _ ∧ _
  all_goals subst_vars
  all_goals simp [Event.isGenerator]

/-- A Document the Document Generator returns has the input's name, the PDF mime
type, and a buffer as Body whose length is its Size. -/
theorem generate_ok {σ : Type} (env : Env σ) (doc : Document) (preset : Preset)
    (w : World σ) (d : Document)
    (h : (generateTypstDocument env doc preset w).1 = (d, none)) :
    d.Name = doc.Name ∧ d.MimeType = ApplicationPdf ∧
      ∃ out, d.Body = .buffer out ∧ d.Size = out.Len := by
  unfold generateTypstDocument at h
  simp only [World.call, World.emit] at h
  repeat' split at h
  all_goals simp only [Prod.mk.injEq, reduceCtorEq, and_false, false_and] at h
  all_goals (obtain ⟨rfl, _⟩ := h; simp)

theorem printDocument_preset_error {σ : Type} (env : Env σ) (doc : Document)
    (presetName : String) (w : World σ) (err : GoError) (s1 : σ)
    (hpreset : env.getPreset presetName w.st = (.error err, s1)) :
    printDocument env doc presetName w =
      ((0, some err),
        ⟨s1, w.trace ++ [.callPrintDocument doc presetName, .getPreset presetName]⟩) := by
  simp [printDocument, World.call, World.emit, hpreset]

theorem printDocument_printer_error {σ : Type} (env : Env σ) (doc : Document)
    (presetName : String) (w : World σ) (preset : Preset) (err : GoError) (s1 s2 : σ)
    (hpreset : env.getPreset presetName w.st = (.ok preset, s1))
    (hprinter : env.getPrinter preset.Printer s1 = (.error err, s2)) :
    printDocument env doc presetName w =
      ((0, some err), resolvedWorld w doc presetName preset s2) := by
  simp [printDocument, World.call, World.emit, hpreset, hprinter, resolvedWorld]

theorem printDocument_plain {σ : Type} (env : Env σ) (doc : Document)
    (presetName : String) (w : World σ) (preset : Preset) (p : Printer) (s1 s2 : σ)
    (hpreset : env.getPreset presetName w.st = (.ok preset, s1))
    (hprinter : env.getPrinter preset.Printer s1 = (.ok p, s2))
    (hempty : preset.TypstTemplate.Content = "") :
    printDocument env doc presetName w =
      submitStep env p preset presetName doc (resolvedWorld w doc presetName preset s2) := by
  rcases hjob : env.PrintJob p doc preset.JobAttributes s2 with ⟨_ | id, s3⟩ <;>
    simp [printDocument, World.call, World.emit, hpreset, hprinter, hempty, resolvedWorld,
      submitStep, hjob]

theorem printDocument_generate_error {σ : Type} (env : Env σ) (doc : Document)
    (presetName : String) (w : World σ) (preset : Preset) (p : Printer) (s1 s2 : σ)
    (d : Document) (err : GoError) (w3 : World σ)
    (hpreset : env.getPreset presetName w.st = (.ok preset, s1))
    (hprinter : env.getPrinter preset.Printer s1 = (.ok p, s2))
    (hcontent : preset.TypstTemplate.Content ≠ "")
    (hgen : generateTypstDocument env doc preset (resolvedWorld w doc presetName preset s2) =
      ((d, some err), w3)) :
    printDocument env doc presetName w = ((0, some err), w3) := by
  simp only [resolvedWorld] at hgen
  simp [printDocument, World.call, World.emit, hpreset, hprinter, hcontent, hgen]

theorem printDocument_generate_ok {σ : Type} (env : Env σ) (doc : Document)
    (presetName : String) (w : World σ) (preset : Preset) (p : Printer) (s1 s2 : σ)
    (d : Document) (w3 : World σ)
    (hpreset : env.getPreset presetName w.st = (.ok preset, s1))
    (hprinter : env.getPrinter preset.Printer s1 = (.ok p, s2))
    (hcontent : preset.TypstTemplate.Content ≠ "")
    (hgen : generateTypstDocument env doc preset (resolvedWorld w doc presetName preset s2) =
      ((d, none), w3)) :
    printDocument env doc presetName w = submitStep env p preset presetName d w3 := by
  simp only [resolvedWorld] at hgen
  rcases hjob : env.PrintJob p d preset.JobAttributes w3.st with ⟨_ | id, s3⟩ <;>
    simp [printDocument, World.call, World.emit, hpreset, hprinter, hcontent, hgen,
      submitStep, hjob]

theorem ioTrace_append (a b : List Event) : ioTrace (a ++ b) = ioTrace a ++ ioTrace b := by
  simp [ioTrace]

theorem invocations_append (a b : List Event) :
    invocations (a ++ b) = invocations a + invocations b := by
  simp [invocations]

theorem toIOCall_generator (e : Event) (h : e.isGenerator = true) : e.toIOCall = none := by
  cases e <;> first | rfl | simp [Event.isGenerator] at h

theorem ioTrace_generator (evs : List Event) (h : ∀ e ∈ evs, e.isGenerator = true) :
    ioTrace evs = [] := by
  induction evs with
  | nil => rfl
  | cons e rest ih =>
    have he := toIOCall_generator e (h e (List.mem_cons_self _ _))
    have hrest := ih (fun x hx => h x (List.mem_cons_of_mem _ hx))
    simp only [ioTrace] at hrest ⊢
    rw [List.filterMap_cons, he]
    exact hrest

theorem invocations_generator (evs : List Event) (h : ∀ e ∈ evs, e.isGenerator = true) :
    invocations evs = 0 := by
  unfold invocations
  rw [List.countP_eq_zero]
  intro e he
  have hg := h e he
  cases e <;> simp [Event.isGenerator] at hg ⊢

theorem generate_ioTrace {σ : Type} (env : Env σ) (doc : Document) (preset : Preset)
    (w : World σ) :
    ioTrace (generateTypstDocument env doc preset w).2.trace = ioTrace w.trace := by
  obtain ⟨htrace, hgen⟩ := generate_trace env doc preset w
  rw [htrace, ioTrace_append, ioTrace_generator _ hgen, List.append_nil]

theorem generate_invocations {σ : Type} (env : Env σ) (doc : Document) (preset : Preset)
    (w : World σ) :
    invocations (generateTypstDocument env doc preset w).2.trace = invocations w.trace := by
  obtain ⟨htrace, hgen⟩ := generate_trace env doc preset w
  rw [htrace, invocations_append, invocations_generator _ hgen, Nat.add_zero]

theorem submitStep_ioTrace {σ : Type} (env : Env σ) (p : Printer) (preset : Preset)
    (presetName : String) (doc1 : Document) (w3 : World σ) :
    ioTrace (submitStep env p preset presetName doc1 w3).2.trace =
      ioTrace w3.trace ++ [.submit] := by
  unfold submitStep
  rcases env.PrintJob p doc1 preset.JobAttributes w3.st with ⟨_ | id, s⟩ <;>
    simp [ioTrace, Event.toIOCall]

theorem submitStep_invocations {σ : Type} (env : Env σ) (p : Printer) (preset : Preset)
    (presetName : String) (doc1 : Document) (w3 : World σ) :
    invocations (submitStep env p preset presetName doc1 w3).2.trace =
      invocations w3.trace := by
  unfold submitStep
  rcases env.PrintJob p doc1 preset.JobAttributes w3.st with ⟨_ | id, s⟩ <;>
    simp [invocations]

/-- The five ways through `printDocument`. -/
theorem printDocument_cases {σ : Type} (env : Env σ) (doc : Document)
    (presetName : String) (w : World σ) :
    (∃ err s1, env.getPreset presetName w.st = (.error err, s1) ∧
      printDocument env doc presetName w =
        ((0, some err),
          ⟨s1, w.trace ++ [.callPrintDocument doc presetName, .getPreset presetName]⟩)) ∨
    (∃ preset s1 err s2, env.getPreset presetName w.st = (.ok preset, s1) ∧
      env.getPrinter preset.Printer s1 = (.error err, s2) ∧
      printDocument env doc presetName w =
        ((0, some err), resolvedWorld w doc presetName preset s2)) ∨
    (∃ preset s1 p s2, env.getPreset presetName w.st = (.ok preset, s1) ∧
      env.getPrinter preset.Printer s1 = (.ok p, s2) ∧
      preset.TypstTemplate.Content = "" ∧
      printDocument env doc presetName w =
        submitStep env p preset presetName doc (resolvedWorld w doc presetName preset s2)) ∨
    (∃ preset s1 p s2 d err w3, env.getPreset presetName w.st = (.ok preset, s1) ∧
      env.getPrinter preset.Printer s1 = (.ok p, s2) ∧
      preset.TypstTemplate.Content ≠ "" ∧
      generateTypstDocument env doc preset (resolvedWorld w doc presetName preset s2) =
        ((d, some err), w3) ∧
      printDocument env doc presetName w = ((0, some err), w3)) ∨
    (∃ preset s1 p s2 d w3, env.getPreset presetName w.st = (.ok preset, s1) ∧
      env.getPrinter preset.Printer s1 = (.ok p, s2) ∧
      preset.TypstTemplate.Content ≠ "" ∧
      generateTypstDocument env doc preset (resolvedWorld w doc presetName preset s2) =
        ((d, none), w3) ∧
      printDocument env doc presetName w = submitStep env p preset presetName d w3) := by
  rcases hpreset : env.getPreset presetName w.st with ⟨err | preset, s1⟩
  · exact Or.inl ⟨err, s1, rfl, printDocument_preset_error env doc presetName w err s1 hpreset⟩
  · rcases hprinter : env.getPrinter preset.Printer s1 with ⟨err | p, s2⟩
    · exact Or.inr (Or.inl ⟨preset, s1, err, s2, rfl, hprinter,
        printDocument_printer_error env doc presetName w preset err s1 s2 hpreset hprinter⟩)
    · by_cases hcontent : preset.TypstTemplate.Content = ""
      · exact Or.inr (Or.inr (Or.inl ⟨preset, s1, p, s2, rfl, hprinter, hcontent,
          printDocument_plain env doc presetName w preset p s1 s2 hpreset hprinter hcontent⟩))
      · rcases hgen : generateTypstDocument env doc preset
            (resolvedWorld w doc presetName preset s2) with ⟨⟨d, _ | err⟩, w3⟩
        · exact Or.inr (Or.inr (Or.inr (Or.inr ⟨preset, s1, p, s2, d, w3, rfl, hprinter,
            hcontent, hgen, printDocument_generate_ok env doc presetName w preset p s1 s2 d w3
              hpreset hprinter hcontent hgen⟩)))
        · exact Or.inr (Or.inr (Or.inr (Or.inl ⟨preset, s1, p, s2, d, err, w3, rfl, hprinter,
            hcontent, hgen, printDocument_generate_error env doc presetName w preset p s1 s2 d
              err w3 hpreset hprinter hcontent hgen⟩)))

/-- Every call of `printDocument` records exactly one invocation. -/
theorem printDocument_invocations {σ : Type} (env : Env σ) (doc : Document)
    (presetName : String) (w : World σ) :
    invocations (printDocument env doc presetName w).2.trace = invocations w.trace + 1 := by
  rcases printDocument_cases env doc presetName w with
    ⟨err, s1, _, h⟩ | ⟨preset, s1, err, s2, _, _, h⟩ | ⟨preset, s1, p, s2, _, _, _, h⟩ |
    ⟨preset, s1, p, s2, d, err, w3, _, _, _, hgen, h⟩ |
    ⟨preset, s1, p, s2, d, w3, _, _, _, hgen, h⟩
  · rw [h]; simp [invocations]
  · rw [h]; simp [invocations, resolvedWorld]
  · rw [h, submitStep_invocations]; simp [invocations, resolvedWorld]
  · have hg := generate_invocations env doc preset (resolvedWorld w doc presetName preset s2)
    rw [hgen] at hg
    rw [h]; simp only [] at hg ⊢; rw [hg]; simp [invocations, resolvedWorld]
  · have hg := generate_invocations env doc preset (resolvedWorld w doc presetName preset s2)
    rw [hgen] at hg
    rw [h, submitStep_invocations]; simp only [] at hg ⊢; rw [hg]
    simp [invocations, resolvedWorld]

/-- A call of `printDocument` fetches nothing and submits at most once; it submits
exactly once when it succeeds. -/
theorem printDocument_ioTrace {σ : Type} (env : Env σ) (doc : Document)
    (presetName : String) (w : World σ) :
    ∃ tail, ioTrace (printDocument env doc presetName w).2.trace = ioTrace w.trace ++ tail ∧
      ((printDocument env doc presetName w).1.2 = none → tail = [.submit]) ∧
      (tail = [] ∨ tail = [.submit]) := by
  rcases printDocument_cases env doc presetName w with
    ⟨err, s1, _, h⟩ | ⟨preset, s1, err, s2, _, _, h⟩ | ⟨preset, s1, p, s2, _, _, _, h⟩ |
    ⟨preset, s1, p, s2, d, err, w3, _, _, _, hgen, h⟩ |
    ⟨preset, s1, p, s2, d, w3, _, _, _, hgen, h⟩
  · refine ⟨[], ?_, ?_, Or.inl rfl⟩ <;> rw [h] <;> simp [ioTrace, Event.toIOCall]
  · refine ⟨[], ?_, ?_, Or.inl rfl⟩ <;> rw [h] <;>
      simp [ioTrace, Event.toIOCall, resolvedWorld]
  · refine ⟨[.submit], ?_, fun _ => rfl, Or.inr rfl⟩
    rw [h, submitStep_ioTrace]; simp [ioTrace, Event.toIOCall, resolvedWorld]
  · have hg := generate_ioTrace env doc preset (resolvedWorld w doc presetName preset s2)
    rw [hgen] at hg
    refine ⟨[], ?_, ?_, Or.inl rfl⟩ <;> rw [h]
    · simp only [] at hg ⊢; rw [hg]; simp [ioTrace, Event.toIOCall, resolvedWorld]
    · simp
  · have hg := generate_ioTrace env doc preset (resolvedWorld w doc presetName preset s2)
    rw [hgen] at hg
    refine ⟨[.submit], ?_, fun _ => rfl, Or.inr rfl⟩
    rw [h, submitStep_ioTrace]; simp only [] at hg ⊢; rw [hg]
    simp [ioTrace, Event.toIOCall, resolvedWorld]

/-! ## Lemmas on the loops -/

/-- The loop of `printDocuments` with accumulator `acc` against the traversal. -/
theorem printDocumentsLoop_traverse {σ : Type} (env : Env σ) (docs : List document)
    (acc : List Int) (w : World σ) :
    printDocumentsLoop env docs acc w =
      match failFastTraverse (fun d => printDocument env d.Doc d.Preset) docs w with
      | ((_, some err), w1) => (([], some err), w1)
      | ((ids, none), w1) => ((acc ++ ids, none), w1) := by
  induction docs generalizing acc w with
  | nil => simp [printDocumentsLoop, failFastTraverse]
  | cons d rest ih =>
    simp only [printDocumentsLoop, failFastTraverse]
    rcases printDocument env d.Doc d.Preset w with ⟨⟨id, _ | err⟩, w1⟩
    · simp only [ih]
      rcases htail : failFastTraverse (fun d => printDocument env d.Doc d.Preset) rest w1 with
        ⟨⟨ids, _ | err⟩, w2⟩ <;> simp [htail]
    · rfl

/-- A prefix on which the loop of `printDocuments` succeeds can be split off. -/
theorem printDocumentsLoop_append {σ : Type} (env : Env σ) (pre rest : List document)
    (acc ids : List Int) (w w1 : World σ)
    (hpre : printDocumentsLoop env pre acc w = ((ids, none), w1)) :
    printDocumentsLoop env (pre ++ rest) acc w = printDocumentsLoop env rest ids w1 ∧
      ids.length = acc.length + pre.length ∧
      invocations w1.trace = invocations w.trace + pre.length := by
  induction pre generalizing acc w with
  | nil =>
    simp only [printDocumentsLoop, Prod.mk.injEq, and_true] at hpre
    obtain ⟨rfl, rfl⟩ := hpre
    simp
  | cons d pre ih =>
    simp only [printDocumentsLoop, List.cons_append] at hpre ⊢
    have hinv := printDocument_invocations env d.Doc d.Preset w
    rcases hstep : printDocument env d.Doc d.Preset w with ⟨⟨id, _ | err⟩, w2⟩
    · rw [hstep] at hpre hinv
      simp only [] at hpre hinv ⊢
      obtain ⟨h1, h2, h3⟩ := ih (acc ++ [id]) w2 hpre
      refine ⟨h1, ?_, ?_⟩
      · rw [h2]; simp; omega
      · rw [h3, hinv]; simp; omega
    · rw [hstep] at hpre
      simp at hpre

/-- A call of `downloadFile` makes exactly one fetch, of its URL. -/
theorem downloadFile_ioTrace {σ : Type} (env : Env σ) (url cookies : String)
    (w : World σ) :
    ioTrace (downloadFile env url cookies w).2.trace = ioTrace w.trace ++ [.fetch url] := by
  unfold downloadFile
  simp only [World.call]
  rcases env.DownloadFile url cookies w.st with ⟨err | file, s1⟩
  · simp [ioTrace, Event.toIOCall]
  · simp only []
    split
    · simp [ioTrace, Event.toIOCall]
    · split <;> simp [ioTrace, Event.toIOCall]

/-- A prefix on which the loop of `urls` succeeds can be split off; it has fetched
and submitted each of its pairs, in order. -/
theorem urlsLoop_append {σ : Type} (env : Env σ) (cookies : String)
    (pre rest : List urlDocument) (acc ids : List Int) (w w1 : World σ) (code : Nat)
    (hpre : urlsLoop env cookies pre acc w = (.urlsPrintResponse code ids, w1)) :
    urlsLoop env cookies (pre ++ rest) acc w = urlsLoop env cookies rest ids w1 ∧
      ids.length = acc.length + pre.length ∧
      ioTrace w1.trace =
        ioTrace w.trace ++ pre.flatMap (fun u => [IOCall.fetch u.Url, IOCall.submit]) := by
  induction pre generalizing acc w with
  | nil =>
    simp only [urlsLoop, Prod.mk.injEq, Response.urlsPrintResponse.injEq] at hpre
    obtain ⟨⟨_, rfl⟩, rfl⟩ := hpre
    simp
  | cons d pre ih =>
    simp only [urlsLoop, List.cons_append] at hpre ⊢
    have hdl := downloadFile_ioTrace env d.Url cookies w
    rcases hfetch : downloadFile env d.Url cookies w with ⟨err | printDoc, w2⟩
    · rw [hfetch] at hpre
      simp [errorResponse] at hpre
    · rw [hfetch] at hpre hdl
      simp only [] at hpre hdl ⊢
      obtain ⟨tail, hio, hok, _⟩ := printDocument_ioTrace env printDoc d.Preset w2
      rcases hprint : printDocument env printDoc d.Preset w2 with ⟨⟨jobID, _ | err⟩, w3⟩
      · rw [hprint] at hpre hio hok
        simp only [] at hpre hio hok ⊢
        obtain ⟨h1, h2, h3⟩ := ih (acc ++ [jobID]) w3 hpre
        refine ⟨h1, ?_, ?_⟩
        · rw [h2]; simp; omega
        · rw [h3, hio, hok trivial, hdl]; simp
      · rw [hprint] at hpre
        simp [errorResponse] at hpre

/-- The loop of `urls` at a pair that fails: status 500, nothing of the later pairs
is touched. -/
theorem urlsLoop_fail {σ : Type} (env : Env σ) (cookies : String) (d : urlDocument)
    (post : List urlDocument) (acc : List Int) (w1 : World σ)
    (hfail : (∃ err w2, downloadFile env d.Url cookies w1 = (.error err, w2)) ∨
      ∃ printDoc w2 j err w3, downloadFile env d.Url cookies w1 = (.ok printDoc, w2) ∧
        printDocument env printDoc d.Preset w2 = ((j, some err), w3)) :
    (∃ msg, (urlsLoop env cookies (d :: post) acc w1).1 =
        Response.error StatusInternalServerError msg) ∧
      urlsLoop env cookies (d :: post) acc w1 = urlsLoop env cookies [d] acc w1 ∧
      ∃ tail, ioTrace (urlsLoop env cookies (d :: post) acc w1).2.trace =
          ioTrace w1.trace ++ IOCall.fetch d.Url :: tail ∧
        (tail = [] ∨ tail = [IOCall.submit]) := by
  have hdl := downloadFile_ioTrace env d.Url cookies w1
  rcases hfail with ⟨err, w2, hfetch⟩ | ⟨printDoc, w2, j, err, w3, hfetch, hprint⟩
  · rw [hfetch] at hdl
    simp only [] at hdl
    refine ⟨⟨"could not download file", by simp [urlsLoop, hfetch, errorResponse]⟩,
      by simp [urlsLoop, hfetch], [], ?_, Or.inl rfl⟩
    simp [urlsLoop, hfetch, World.emit, ioTrace_append, hdl]
    simp [ioTrace, Event.toIOCall]
  · rw [hfetch] at hdl
    simp only [] at hdl
    obtain ⟨tail, hio, _, htail⟩ := printDocument_ioTrace env printDoc d.Preset w2
    rw [hprint] at hio
    simp only [] at hio
    refine ⟨⟨"print error: " ++ err.Error, by simp [urlsLoop, hfetch, hprint, errorResponse]⟩,
      by simp [urlsLoop, hfetch, hprint], tail, ?_, htail⟩
    simp [urlsLoop, hfetch, hprint, World.emit, ioTrace_append, hio, hdl]
    simp [ioTrace, Event.toIOCall]

theorem submitStep_trace {σ : Type} (env : Env σ) (p : Printer) (preset : Preset)
    (presetName : String) (doc1 : Document) (w3 : World σ) :
    (submitStep env p preset presetName doc1 w3).2.trace =
      w3.trace ++ [.debug ("Print file " ++ doc1.Name ++ " on printer " ++ p.Name
        ++ " with preset " ++ presetName ++ ".") "http - print - url",
        .printJob p doc1 preset.JobAttributes] := by
  unfold submitStep
  rcases env.PrintJob p doc1 preset.JobAttributes w3.st with ⟨_ | id, s⟩ <;> rfl

/-- Every error of the Document Generator is a text-only error: a fixed description
followed by the text of the error a collaborator returned, or "no output was
written". -/
theorem generate_error_shape {σ : Type} (env : Env σ) (doc : Document) (preset : Preset)
    (w : World σ) (d : Document) (err : GoError)
    (h : (generateTypstDocument env doc preset w).1 = (d, some err)) :
    (∃ cause, env.ExtensionsByType doc.MimeType = .error cause ∧
      err = ErrorfV ("failed to get extension for mime type " ++ doc.MimeType ++ ": ") cause) ∨
    (∃ cause dir pattern s, (env.CreateTemp dir pattern s).1 = .error cause ∧
      err = ErrorfV "failed to create temp file: " cause) ∨
    (∃ cause file bytes s, (env.Write file bytes s).1 = .error cause ∧
      err = ErrorfV "failed to write document: " cause) ∨
    (∃ cause values, env.InjectValues values = .error cause ∧
      err = ErrorfV "failed to inject values into document: " cause) ∨
    (∃ cause dir input s, (env.Compile dir input OutputFormatPDF s).1 = .error cause ∧
      err = ErrorfV "failed to compile document: " cause) ∨
    err = .errorString "no output was written" := by
  unfold generateTypstDocument at h
  simp only [World.call, World.emit] at h
  split at h
  · next e hext =>
    simp only [Prod.mk.injEq, Option.some.injEq] at h
    obtain ⟨_, rfl⟩ := h
    left
    split at hext
    · split at hext
      · next cause hc =>
        simp only [Except.error.injEq] at hext
        exact ⟨cause, hc, hext.symm⟩
      · split at hext <;> simp at hext
    · simp at hext
  · right
    split at h
    · next cause w1 hct =>
      simp only [Prod.mk.injEq, Option.some.injEq] at h hct
      obtain ⟨_, rfl⟩ := h
      exact Or.inl ⟨cause, _, _, _, hct.1, rfl⟩
    · right
      simp only [] at h
      split at h
      · next cause w2 hwr =>
        simp only [Prod.mk.injEq, Option.some.injEq] at h hwr
        obtain ⟨_, rfl⟩ := h
        exact Or.inl ⟨cause, _, _, _, hwr.1, rfl⟩
      · right
        split at h
        · next cause hinj =>
          simp only [Prod.mk.injEq, Option.some.injEq] at h
          obtain ⟨_, rfl⟩ := h
          exact Or.inl ⟨cause, _, hinj, rfl⟩
        · right
          split at h
          · next cause w3 hcomp =>
            simp only [Prod.mk.injEq, Option.some.injEq] at h hcomp
            obtain ⟨_, rfl⟩ := h
            exact Or.inl ⟨cause, _, _, _, hcomp.1, rfl⟩
          · right
            split at h
            · simp only [Prod.mk.injEq, Option.some.injEq] at h
              exact h.2.symm
            · simp at h

theorem generate_events {σ : Type} (env : Env σ) (doc : Document) (preset : Preset)
    (w : World σ) :
    ∃ evs, (generateTypstDocument env doc preset w).2.trace = w.trace ++ evs ∧
      ∀ e ∈ evs, e.isGenerator = true :=
  ⟨_, generate_trace env doc preset w⟩

theorem failFastTraverse_error_nil {σ α : Type}
    (f : α → World σ → (Int × Option GoError) × World σ) (xs : List α) (w w1 : World σ)
    (ids : List Int) (err : GoError)
    (h : failFastTraverse f xs w = ((ids, some err), w1)) : ids = [] := by
  cases xs with
  | nil => simp [failFastTraverse] at h
  | cons x xs =>
    simp only [failFastTraverse] at h
    split at h
    · simp only [Prod.mk.injEq] at h
      exact h.1.1.symm
    · split at h
      · simp only [Prod.mk.injEq] at h
        exact h.1.1.symm
      · simp at h

/-! ## Print Orchestrator -/

/-- C1: for a preset with empty template content and a resolvable printer,
`printDocument` makes exactly the calls `getPreset`, `getPrinter`, the debug trace and
one `PrintJob`, the latter with the input Document itself and the preset's
JobAttributes; the Document Generator is not invoked; the result is the job ID that
`PrintJob` returned, or job ID 0 with the submit error wrapped as "IPP error". -/
theorem printDocument_verbatim {σ : Type} (env : Env σ) (doc : Document)
    (presetName : String) (w : World σ) (preset : Preset) (p : Printer) (s1 s2 : σ)
    (hpreset : env.getPreset presetName w.st = (.ok preset, s1))
    (hempty : preset.TypstTemplate.Content = "")
    (hprinter : env.getPrinter preset.Printer s1 = (.ok p, s2)) :
    (printDocument env doc presetName w).2.trace =
        w.trace ++ [.callPrintDocument doc presetName, .getPreset presetName,
          .getPrinter preset.Printer,
          .debug ("Print file " ++ doc.Name ++ " on printer " ++ p.Name
            ++ " with preset " ++ presetName ++ ".") "http - print - url",
          .printJob p doc preset.JobAttributes] ∧
      (printDocument env doc presetName w).2.st =
        (env.PrintJob p doc preset.JobAttributes s2).2 ∧
      (∀ id, (env.PrintJob p doc preset.JobAttributes s2).1 = .ok id →
        (printDocument env doc presetName w).1 = (id, none)) ∧
      (∀ err, (env.PrintJob p doc preset.JobAttributes s2).1 = .error err →
        (printDocument env doc presetName w).1 = (0, some (ErrorfW "IPP error: " err))) := by
  cases hjob : env.PrintJob p doc preset.JobAttributes s2 with
  | mk res s3 =>
    cases res <;>
      simp [printDocument, World.call, World.emit, hpreset, hempty, hprinter, hjob]

/-- Instance of C1: the JPEG document printed with preset "plain" reaches the printer
unchanged, in one submit call, and job 1 is returned. -/
theorem printDocument_verbatim_witness :
    (printDocument (demoEnv demoCompiled demoFetched) demoDoc "plain" world0).2.trace =
        [.callPrintDocument demoDoc "plain", .getPreset "plain", .getPrinter "office",
          .debug "Print file scan on printer Office with preset plain." "http - print - url",
          .printJob ⟨"Office"⟩ demoDoc [("copies", "1")]] ∧
      (printDocument (demoEnv demoCompiled demoFetched) demoDoc "plain" world0).1 =
        (1, none) :=
  have h := printDocument_verbatim (demoEnv demoCompiled demoFetched) demoDoc "plain" world0
    plainPreset ⟨"Office"⟩ 0 0 rfl rfl rfl
  ⟨h.1, h.2.2.1 1 rfl⟩

/-- C4: for a preset name the preset registry does not know, `printDocument` returns
job ID 0 with the registry's error unchanged, and the only collaborator call it makes
is the one `getPreset` lookup: no `getPrinter`, no Document Generator, no `PrintJob`. -/
theorem printDocument_unknown_preset {σ : Type} (env : Env σ) (doc : Document)
    (presetName : String) (w : World σ) (err : GoError) (s1 : σ)
    (hpreset : env.getPreset presetName w.st = (.error err, s1)) :
    printDocument env doc presetName w =
      ((0, some err),
        ⟨s1, w.trace ++ [.callPrintDocument doc presetName, .getPreset presetName]⟩) := by
  simp [printDocument, World.call, World.emit, hpreset]

/-- Instance of C4: the preset "nope" is unknown to the concrete installation. -/
theorem printDocument_unknown_preset_witness :
    printDocument (demoEnv demoCompiled demoFetched) demoDoc "nope" world0 =
      ((0, some (.errorString "unknown preset nope")),
        ⟨0, [.callPrintDocument demoDoc "nope", .getPreset "nope"]⟩) :=
  printDocument_unknown_preset (demoEnv demoCompiled demoFetched) demoDoc "nope" world0
    (.errorString "unknown preset nope") 0 rfl

/-- C5: for a preset with non-empty template content, every `PrintJob` call that
`printDocument` makes carries the Document the Document Generator returned, whose
MimeType is the PDF mime type and whose Name is the input Document's Name; it goes to
the resolved printer with the preset's JobAttributes. -/
theorem printDocument_templated_submit {σ : Type} (env : Env σ) (doc : Document)
    (presetName : String) (w : World σ) (preset : Preset) (p : Printer) (s1 s2 : σ)
    (hpreset : env.getPreset presetName w.st = (.ok preset, s1))
    (hprinter : env.getPrinter preset.Printer s1 = (.ok p, s2))
    (hcontent : preset.TypstTemplate.Content ≠ "")
    (q : Printer) (d : Document) (attrs : JobAttributes)
    (hsubmit : Event.printJob q d attrs ∈
      emitted w (printDocument env doc presetName w).2) :
    (generateTypstDocument env doc preset
        (resolvedWorld w doc presetName preset s2)).1 = (d, none) ∧
      d.MimeType = ApplicationPdf ∧ d.Name = doc.Name ∧
      q = p ∧ attrs = preset.JobAttributes := by
  obtain ⟨evs, htrace, hevs⟩ :=
    generate_events env doc preset (resolvedWorld w doc presetName preset s2)
  rcases hgen : generateTypstDocument env doc preset
      (resolvedWorld w doc presetName preset s2) with ⟨⟨d1, _ | err⟩, w3⟩
  · rw [printDocument_generate_ok env doc presetName w preset p s1 s2 d1 w3 hpreset hprinter
      hcontent hgen] at hsubmit
    rw [hgen] at htrace
    simp only [] at htrace
    simp only [emitted, submitStep_trace, htrace, resolvedWorld, List.append_assoc,
      List.drop_left, List.mem_append, List.mem_cons, List.mem_singleton,
      List.not_mem_nil, reduceCtorEq, Event.printJob.injEq, or_false, false_or] at hsubmit
    rcases hsubmit with hmem | ⟨rfl, rfl, rfl⟩
    · have := hevs _ hmem
      simp [Event.isGenerator] at this
    · have hok := generate_ok env doc preset (resolvedWorld w doc presetName preset s2) d
        (by rw [hgen])
      exact ⟨rfl, hok.2.1, hok.1, rfl, rfl⟩
  · rw [printDocument_generate_error env doc presetName w preset p s1 s2 d1 err w3 hpreset
      hprinter hcontent hgen] at hsubmit
    rw [hgen] at htrace
    simp only [] at htrace
    simp only [emitted, htrace, resolvedWorld, List.append_assoc,
      List.drop_left, List.mem_append, List.mem_cons, List.mem_singleton,
      List.not_mem_nil, reduceCtorEq, or_false, false_or] at hsubmit
    have := hevs _ hsubmit
    simp [Event.isGenerator] at this

/-- Instance of C5: the JPEG document printed with the templated preset "letter"
reaches the printer as the generated PDF document of the same name. -/
theorem printDocument_templated_submit_witness :
    Event.printJob ⟨"Office"⟩ ⟨.buffer ⟨[37, 80, 68, 70], 508⟩, 4, "scan", ApplicationPdf⟩
        [("media", "a4")] ∈
        emitted world0
          (printDocument (demoEnv demoCompiled demoFetched) demoDoc "letter" world0).2 ∧
      (generateTypstDocument (demoEnv demoCompiled demoFetched) demoDoc letterPreset
        (resolvedWorld world0 demoDoc "letter" letterPreset 0)).1 =
        (⟨.buffer ⟨[37, 80, 68, 70], 508⟩, 4, "scan", ApplicationPdf⟩, none) :=
  have hmem : Event.printJob ⟨"Office"⟩
      ⟨.buffer ⟨[37, 80, 68, 70], 508⟩, 4, "scan", ApplicationPdf⟩ [("media", "a4")] ∈
      emitted world0
        (printDocument (demoEnv demoCompiled demoFetched) demoDoc "letter" world0).2 := by
    decide
  ⟨hmem, (printDocument_templated_submit (demoEnv demoCompiled demoFetched) demoDoc "letter"
    world0 letterPreset ⟨"Office"⟩ 0 0 rfl rfl (by decide) _ _ _ hmem).1⟩

/-! ## Document Generator -/

/-- C7: the pattern of the temporary file `generateTypstDocument` creates is "doc-*"
followed by the first extension the mime registry lists for the Document's mime type
when that type is non-empty and the list is non-empty, and by ".pdf" when the mime
type is empty or the list is empty; when the registry fails for a non-empty mime type
no temporary file is created and the call fails. -/
theorem generateTypstDocument_extension {σ : Type} (env : Env σ) (doc : Document)
    (preset : Preset) (w : World σ) :
    (∀ first rest, doc.MimeType ≠ "" →
      env.ExtensionsByType doc.MimeType = .ok (first :: rest) →
      ∀ dir pattern, Event.createTemp dir pattern ∈
          emitted w (generateTypstDocument env doc preset w).2 ↔
        dir = (if preset.TypstTemplate.WorkingDirectory = "" then DefaultWorkingDirectory
          else preset.TypstTemplate.WorkingDirectory) ∧ pattern = "doc-*" ++ first) ∧
    (doc.MimeType = "" ∨ env.ExtensionsByType doc.MimeType = .ok [] →
      ∀ dir pattern, Event.createTemp dir pattern ∈
          emitted w (generateTypstDocument env doc preset w).2 ↔
        dir = (if preset.TypstTemplate.WorkingDirectory = "" then DefaultWorkingDirectory
          else preset.TypstTemplate.WorkingDirectory) ∧ pattern = "doc-*" ++ ".pdf") ∧
    (∀ cause, doc.MimeType ≠ "" → env.ExtensionsByType doc.MimeType = .error cause →
      (generateTypstDocument env doc preset w).1.2 ≠ none ∧
      ∀ dir pattern, Event.createTemp dir pattern ∉
        emitted w (generateTypstDocument env doc preset w).2) := by
  refine ⟨?_, ?_, ?_⟩
  · intro first rest hmime hext dir pattern
    unfold generateTypstDocument
    simp only [World.call, World.emit, emitted, hmime, hext, ne_eq, not_false_eq_true,
      if_true]
    generalize (if preset.TypstTemplate.WorkingDirectory = "" then DefaultWorkingDirectory
      else preset.TypstTemplate.WorkingDirectory) = wd
    repeat' split
    all_goals simp only [Prod.mk.injEq] at *
    all_goals try casesm* _ ∧ _
    all_goals subst_vars
    all_goals simp
  · intro hcase dir pattern
    unfold generateTypstDocument
    have hext : (if doc.MimeType ≠ "" then
        match env.ExtensionsByType doc.MimeType with
        | .error err => Except.error
          (ErrorfV ("failed to get extension for mime type " ++ doc.MimeType ++ ": ") err)
        | .ok extensions =>
          match extensions with
          | first :: _ => .ok first
          | [] => .ok ".pdf"
        else .ok ".pdf") = .ok ".pdf" := by
      rcases hcase with h | h <;> simp [h]
    simp only [World.call, World.emit, emitted, hext]
    generalize (if preset.TypstTemplate.WorkingDirectory = "" then DefaultWorkingDirectory
      else preset.TypstTemplate.WorkingDirectory) = wd
    repeat' split
    all_goals simp only [Prod.mk.injEq] at *
    all_goals try casesm* _ ∧ _
    all_goals subst_vars
    all_goals simp
  · intro cause hmime hext
    unfold generateTypstDocument
    simp [World.call, World.emit, emitted, hmime, hext]

/-- Instance of C7: a JPEG document gets the first registered JPEG extension, a
document without mime type and one of an unregistered type get ".pdf". -/
theorem generateTypstDocument_extension_witness :
    Event.createTemp "./" "doc-*.jpe" ∈ emitted world0
        (generateTypstDocument (demoEnv demoCompiled demoFetched) demoDoc letterPreset
          world0).2 ∧
      Event.createTemp "./" "doc-*.pdf" ∈ emitted world0
        (generateTypstDocument (demoEnv demoCompiled demoFetched)
          ⟨.nil, 0, "scan", ""⟩ letterPreset world0).2 ∧
      Event.createTemp "./" "doc-*.pdf" ∈ emitted world0
        (generateTypstDocument (demoEnv demoCompiled demoFetched)
          ⟨.nil, 0, "scan", "text/x-unknown"⟩ letterPreset world0).2 :=
  ⟨((generateTypstDocument_extension (demoEnv demoCompiled demoFetched) demoDoc letterPreset
      world0).1 ".jpe" [".jpeg", ".jpg"] (by decide) rfl "./" "doc-*.jpe").2 ⟨rfl, rfl⟩,
    ((generateTypstDocument_extension (demoEnv demoCompiled demoFetched)
      ⟨.nil, 0, "scan", ""⟩ letterPreset world0).2.1 (Or.inl rfl) "./" "doc-*.pdf").2
      ⟨rfl, rfl⟩,
    ((generateTypstDocument_extension (demoEnv demoCompiled demoFetched)
      ⟨.nil, 0, "scan", "text/x-unknown"⟩ letterPreset world0).2.1 (Or.inr rfl) "./"
      "doc-*.pdf").2 ⟨rfl, rfl⟩⟩

/-- What the code does where C6 speaks of the fetched bytes: every write to the
temporary file carries the bytes of the preset's template content. -/
theorem generateTypstDocument_write_bytes {σ : Type} (env : Env σ) (doc : Document)
    (preset : Preset) (w : World σ) (file : File) (bytes : List Byte)
    (hwrite : Event.fileWrite file bytes ∈
      emitted w (generateTypstDocument env doc preset w).2) :
    bytes = stringBytes preset.TypstTemplate.Content := by
  unfold generateTypstDocument at hwrite
  simp only [World.call, World.emit, emitted] at hwrite
  repeat' split at hwrite
  all_goals simp only [Prod.mk.injEq] at *
  all_goals try casesm* _ ∧ _
  all_goals subst_vars
  all_goals simp at hwrite
  all_goals exact hwrite.2

/-- C6, the code at the failing input: for the three-byte JPEG document and the
templated preset "letter", the temporary file is created in the default working
directory "./", but the bytes written to it are the five bytes of the template
content "#page", not the three bytes of the document. -/
theorem generateTypstDocument_writes_template :
    emitted world0
        (generateTypstDocument (demoEnv demoCompiled demoFetched) demoDoc letterPreset
          world0).2 =
        [.callGenerate demoDoc letterPreset, .createTemp "./" "doc-*.jpe",
          .fileWrite ⟨"./doc-1"⟩ [35, 112, 97, 103, 101],
          .compile "./" [35, 112, 97, 103, 101, 115, 99, 97, 110] "pdf",
          .fileClose ⟨"./doc-1"⟩] ∧
      stringBytes letterPreset.TypstTemplate.Content = [35, 112, 97, 103, 101] ∧
      demoDoc.Body.bytes = [1, 2, 3] := by
  decide

/-- C8, the code at the failing input: when the compiler succeeds having written zero
bytes, which leaves the output buffer empty with 512 bytes of unused capacity,
`generateTypstDocument` returns a Document of Size 0 with an empty Body and no error,
and `printDocument` submits that empty Document and returns its job ID. -/
theorem generateTypstDocument_available_check :
    (generateTypstDocument (demoEnv (.ok ⟨[], 512⟩) demoFetched) demoDoc letterPreset
        world0).1 = (⟨.buffer ⟨[], 512⟩, 0, "scan", ApplicationPdf⟩, none) ∧
      (Reader.buffer ⟨[], 512⟩).bytes = [] ∧
      (printDocument (demoEnv (.ok ⟨[], 512⟩) demoFetched) demoDoc "letter" world0).1 =
        (1, none) ∧
      Event.printJob ⟨"Office"⟩ ⟨.buffer ⟨[], 512⟩, 0, "scan", ApplicationPdf⟩
        [("media", "a4")] ∈
        (printDocument (demoEnv (.ok ⟨[], 512⟩) demoFetched) demoDoc "letter" world0).2.trace := by
  decide

/-- C9, counterexample: when the compiler fails with the error "exit status 1",
`printDocument` returns a text-only error; unwrapping it yields nothing, and the
compiler's error is not in its chain of wrapped errors. -/
theorem printDocument_generator_error_counterexample :
    (printDocument (demoEnv (.error (.errorString "exit status 1")) demoFetched) demoDoc
        "letter" world0).1 =
        (0, some (.errorString "failed to compile document: exit status 1")) ∧
      (GoError.errorString "failed to compile document: exit status 1").Unwrap = none ∧
      GoError.errorString "exit status 1" ∉
        (GoError.errorString "failed to compile document: exit status 1").chain := by
  decide

/-- C9 as amended: when the Document Generator fails under a templated preset,
`printDocument` returns job ID 0 and the generator's error unchanged.  That error is
text only: a fixed description followed by the text of the error the failing
collaborator returned (mime registry, temp-file creation, write, value injection,
compiler), or "no output was written"; unwrapping it yields nothing; it is never an
"IPP error" wrapper; and no `PrintJob` call is made. -/
theorem printDocument_generator_error {σ : Type} (env : Env σ) (doc : Document)
    (presetName : String) (w : World σ) (preset : Preset) (p : Printer) (s1 s2 : σ)
    (d : Document) (err : GoError) (w3 : World σ)
    (hpreset : env.getPreset presetName w.st = (.ok preset, s1))
    (hprinter : env.getPrinter preset.Printer s1 = (.ok p, s2))
    (hcontent : preset.TypstTemplate.Content ≠ "")
    (hgen : generateTypstDocument env doc preset (resolvedWorld w doc presetName preset s2) =
      ((d, some err), w3)) :
    printDocument env doc presetName w = ((0, some err), w3) ∧
      err.Unwrap = none ∧
      (∀ cause, err ≠ ErrorfW "IPP error: " cause) ∧
      (∀ q d1 attrs, Event.printJob q d1 attrs ∉ emitted w w3) ∧
      ((∃ cause, env.ExtensionsByType doc.MimeType = .error cause ∧
          err = .errorString
            ("failed to get extension for mime type " ++ doc.MimeType ++ ": " ++ cause.Error)) ∨
        (∃ cause dir pattern s, (env.CreateTemp dir pattern s).1 = .error cause ∧
          err = .errorString ("failed to create temp file: " ++ cause.Error)) ∨
        (∃ cause file bytes s, (env.Write file bytes s).1 = .error cause ∧
          err = .errorString ("failed to write document: " ++ cause.Error)) ∨
        (∃ cause values, env.InjectValues values = .error cause ∧
          err = .errorString ("failed to inject values into document: " ++ cause.Error)) ∨
        (∃ cause dir input s, (env.Compile dir input OutputFormatPDF s).1 = .error cause ∧
          err = .errorString ("failed to compile document: " ++ cause.Error)) ∨
        err = .errorString "no output was written") := by
  have hshape := generate_error_shape env doc preset
    (resolvedWorld w doc presetName preset s2) d err (by rw [hgen])
  simp only [ErrorfV] at hshape
  have htext : ∃ s, err = .errorString s := by
    rcases hshape with ⟨_, _, h⟩ | ⟨_, _, _, _, _, h⟩ | ⟨_, _, _, _, _, h⟩ | ⟨_, _, _, h⟩ |
      ⟨_, _, _, _, _, h⟩ | h <;> exact ⟨_, h⟩
  obtain ⟨s, rfl⟩ := htext
  obtain ⟨evs, htrace, hevs⟩ :=
    generate_events env doc preset (resolvedWorld w doc presetName preset s2)
  rw [hgen] at htrace
  simp only [] at htrace
  refine ⟨printDocument_generate_error env doc presetName w preset p s1 s2 d _ w3 hpreset
    hprinter hcontent hgen, rfl, ?_, ?_, hshape⟩
  · intro cause h
    simp [ErrorfW] at h
  · intro q d1 attrs hmem
    simp only [emitted, htrace, resolvedWorld, List.append_assoc,
      List.drop_left, List.mem_append, List.mem_cons, List.mem_singleton,
      List.not_mem_nil, reduceCtorEq, or_false, false_or] at hmem
    have := hevs _ hmem
    simp [Event.isGenerator] at this

/-- Instance of C9 as amended: the compiler failure "exit status 1" under preset
"letter". -/
theorem printDocument_generator_error_witness :
    printDocument (demoEnv (.error (.errorString "exit status 1")) demoFetched) demoDoc
        "letter" world0 =
      ((0, some (.errorString "failed to compile document: exit status 1")),
        ⟨0, [.callPrintDocument demoDoc "letter", .getPreset "letter", .getPrinter "office",
          .callGenerate demoDoc letterPreset, .createTemp "./" "doc-*.jpe",
          .fileWrite ⟨"./doc-1"⟩ [35, 112, 97, 103, 101],
          .compile "./" [35, 112, 97, 103, 101, 115, 99, 97, 110] "pdf",
          .fileClose ⟨"./doc-1"⟩]⟩) :=
  (printDocument_generator_error (demoEnv (.error (.errorString "exit status 1")) demoFetched)
    demoDoc "letter" world0 letterPreset ⟨"Office"⟩ 0 0 Document.zero
    (.errorString "failed to compile document: exit status 1") _ rfl rfl (by decide)
    (by decide)).1

/-! ## Fetched documents -/

/-- C10, counterexample: a fetch result that declares 5 bytes and delivers 3 becomes a
Document of Size 5 whose Body holds 3 bytes; a fetch result that declares a content
length of 0 is buffered, so its Body is not the fetched stream. -/
theorem downloadFile_size_counterexample :
    (downloadFile (demoEnv demoCompiled ⟨⟨[1, 2, 3], none⟩, 5⟩) "http://x/a.pdf" "" world0).1 =
        .ok ⟨.stream ⟨[1, 2, 3], none⟩, 5, "CloudPrintDocument", ApplicationPdf⟩ ∧
      (5 : Int) ≠ (Reader.stream ⟨[1, 2, 3], none⟩).available ∧
      (downloadFile (demoEnv demoCompiled ⟨⟨[], none⟩, 0⟩) "http://x/a.pdf" "" world0).1 =
        .ok ⟨.buffer ⟨[], 512⟩, 0, "CloudPrintDocument", ApplicationPdf⟩ :=
  ⟨rfl, by decide, rfl⟩

/-- C10 as amended: when the fetch result declares a positive content length,
`downloadFile` keeps the fetched stream itself as Body and sets Size to the declared
length, so Size is the number of bytes available in the Body whenever the declaration
is accurate; otherwise it buffers the whole stream and Size is the number of bytes
read, which is the number of bytes available in the Body (a read error fails the
call); the Document's name is always "CloudPrintDocument"; and every Document
`generateTypstDocument` returns has Size equal to the number of bytes in its Body. -/
theorem document_size {σ : Type} (env : Env σ) (url cookies : String) (w : World σ)
    (file : FetchedFile) (s1 : σ)
    (hfetch : env.DownloadFile url cookies w.st = (.ok file, s1)) :
    (0 < file.ContentLength →
        (downloadFile env url cookies w).1 =
          .ok ⟨.stream file.Body, file.ContentLength, "CloudPrintDocument", ApplicationPdf⟩) ∧
      (¬ 0 < file.ContentLength → file.Body.err = none →
        (downloadFile env url cookies w).1 =
          .ok ⟨.buffer ⟨file.Body.data, env.readFromSpare file.Body.data.length⟩,
            file.Body.data.length, "CloudPrintDocument", ApplicationPdf⟩) ∧
      (∀ err, ¬ 0 < file.ContentLength → file.Body.err = some err →
        (downloadFile env url cookies w).1 = .error err) ∧
      (∀ d, (downloadFile env url cookies w).1 = .ok d →
        d.Name = "CloudPrintDocument" ∧
        ((0 < file.ContentLength → file.ContentLength = file.Body.data.length) →
          d.Size = d.Body.available)) ∧
      (∀ doc preset w0 d, (generateTypstDocument env doc preset w0).1 = (d, none) →
        d.Size = d.Body.available) := by
  refine ⟨?_, ?_, ?_, ?_, ?_⟩
  · intro hpos
    simp [downloadFile, World.call, hfetch, hpos]
  · intro hpos herr
    simp [downloadFile, World.call, hfetch, hpos, Buffer.ReadFrom, herr, Buffer.zero,
      Buffer.Len]
  · intro err hpos herr
    simp [downloadFile, World.call, hfetch, hpos, Buffer.ReadFrom, herr]
  · intro d hd
    by_cases hpos : 0 < file.ContentLength
    · simp [downloadFile, World.call, hfetch, hpos] at hd
      subst hd
      simp [Reader.available, Reader.bytes, hpos]
    · rcases herr : file.Body.err with _ | err
      · simp [downloadFile, World.call, hfetch, hpos, Buffer.ReadFrom, herr, Buffer.zero,
          Buffer.Len] at hd
        subst hd
        simp [Reader.available, Reader.bytes]
      · simp [downloadFile, World.call, hfetch, hpos, Buffer.ReadFrom, herr] at hd
  · intro doc preset w0 d hd
    obtain ⟨_, _, out, hbody, hsize⟩ := generate_ok env doc preset w0 d hd
    rw [hsize, hbody]
    rfl

/-- Instance of C10 as amended: an accurate declaration of three bytes is streamed
with Size 3, which is the number of bytes in the Body. -/
theorem document_size_witness :
    (downloadFile (demoEnv demoCompiled demoFetched) "http://x/a.pdf" "" world0).1 =
        .ok ⟨.stream ⟨[1, 2, 3], none⟩, 3, "CloudPrintDocument", ApplicationPdf⟩ ∧
      (3 : Int) = (Reader.stream ⟨[1, 2, 3], none⟩).available :=
  have h := document_size (demoEnv demoCompiled demoFetched) "http://x/a.pdf" "" world0
    demoFetched 0 rfl
  ⟨h.1 (by decide), (h.2.2.2.1 _ (h.1 (by decide))).2 (fun _ => rfl)⟩

/-! ## Batch Dispatcher and batch handler -/

/-- C2: `printDocuments` is the left-to-right fail-fast traversal of `printDocument`
over the list.  When it succeeds it returns one job ID per entry, in input order, and
`printDocument` has been invoked once per entry; when the entries before index K
succeed and entry K fails, it returns exactly that entry's error with the nil list,
the world is the one that failing call left, and `printDocument` has been invoked K+1
times, whatever follows entry K. -/
theorem printDocuments_failFast {σ : Type} (env : Env σ) (docs : List document)
    (w : World σ) :
    printDocuments env docs w =
        failFastTraverse (fun d => printDocument env d.Doc d.Preset) docs w ∧
      (∀ ids w1, printDocuments env docs w = ((ids, none), w1) →
        ids.length = docs.length ∧
        invocations w1.trace = invocations w.trace + docs.length) ∧
      (∀ pre d post ids w1 j err w2, docs = pre ++ d :: post →
        printDocuments env pre w = ((ids, none), w1) →
        printDocument env d.Doc d.Preset w1 = ((j, some err), w2) →
        printDocuments env docs w = (([], some err), w2) ∧
        invocations w2.trace = invocations w.trace + pre.length + 1) := by
  refine ⟨?_, ?_, ?_⟩
  · unfold printDocuments
    rw [printDocumentsLoop_traverse]
    rcases htr : failFastTraverse (fun d => printDocument env d.Doc d.Preset) docs w with
      ⟨⟨ids, _ | err⟩, w1⟩
    · simp [htr]
    · have hnil := failFastTraverse_error_nil _ docs w w1 ids err htr
      subst hnil
      simp [htr]
  · intro ids w1 h
    have := printDocumentsLoop_append env docs [] [] ids w w1 h
    simpa using this.2
  · intro pre d post ids w1 j err w2 hdocs hpre hfail
    subst hdocs
    obtain ⟨happ, _, hinv⟩ := printDocumentsLoop_append env pre (d :: post) [] ids w w1 hpre
    have hstep := printDocument_invocations env d.Doc d.Preset w1
    rw [hfail] at hstep
    simp only [] at hstep
    refine ⟨?_, by rw [hstep, hinv]⟩
    unfold printDocuments
    rw [happ]
    simp [printDocumentsLoop, hfail]

/-- Instance of C2: in a batch of three whose second preset is unknown, the first
document is printed, the second fails with the registry's error, the third is never
handed to `printDocument`, and no job ID is returned. -/
theorem printDocuments_failFast_witness :
    printDocuments (demoEnv demoCompiled demoFetched)
        [⟨demoDoc, "plain"⟩, ⟨demoDoc, "nope"⟩, ⟨demoDoc, "letter"⟩] world0 =
      (([], some (.errorString "unknown preset nope")),
        ⟨1, [.callPrintDocument demoDoc "plain", .getPreset "plain", .getPrinter "office",
          .debug "Print file scan on printer Office with preset plain." "http - print - url",
          .printJob ⟨"Office"⟩ demoDoc [("copies", "1")],
          .callPrintDocument demoDoc "nope", .getPreset "nope"]⟩) :=
  ((printDocuments_failFast (demoEnv demoCompiled demoFetched)
      [⟨demoDoc, "plain"⟩, ⟨demoDoc, "nope"⟩, ⟨demoDoc, "letter"⟩] world0).2.2
    [⟨demoDoc, "plain"⟩] ⟨demoDoc, "nope"⟩ [⟨demoDoc, "letter"⟩] [1] _ 0
    (.errorString "unknown preset nope") _ rfl rfl rfl).1

/-- C3: when the handler `urls` succeeds on the pairs before index K and pair K fails
in its download or in its print, the response for the whole batch is an error
response with status 500 and no `JobIDs`; the outcome is the one for the batch cut
after pair K; and the fetch and submit calls made are, in order, one fetch and one
submit for each pair before K, then the fetch of pair K, then at most the submit
attempt of pair K: nothing is fetched or submitted for a later pair. -/
theorem urls_first_failure {σ : Type} (env : Env σ) (cookies : String)
    (pre : List urlDocument) (d : urlDocument) (post : List urlDocument)
    (w w1 : World σ) (ids : List Int)
    (hpre : urls env cookies (.ok ⟨pre⟩) w = (.urlsPrintResponse StatusOK ids, w1))
    (hfail : (∃ err w2, downloadFile env d.Url cookies w1 = (.error err, w2)) ∨
      ∃ printDoc w2 j err w3, downloadFile env d.Url cookies w1 = (.ok printDoc, w2) ∧
        printDocument env printDoc d.Preset w2 = ((j, some err), w3)) :
    (∃ msg, (urls env cookies (.ok ⟨pre ++ d :: post⟩) w).1 =
        Response.error StatusInternalServerError msg) ∧
      (∀ code jobIDs, (urls env cookies (.ok ⟨pre ++ d :: post⟩) w).1 ≠
        Response.urlsPrintResponse code jobIDs) ∧
      urls env cookies (.ok ⟨pre ++ d :: post⟩) w = urls env cookies (.ok ⟨pre ++ [d]⟩) w ∧
      ∃ tail, ioTrace (urls env cookies (.ok ⟨pre ++ d :: post⟩) w).2.trace =
          ioTrace w.trace ++ pre.flatMap (fun u => [IOCall.fetch u.Url, IOCall.submit]) ++
            IOCall.fetch d.Url :: tail ∧
        (tail = [] ∨ tail = [IOCall.submit]) := by
  simp only [urls] at hpre ⊢
  obtain ⟨happ, _, hio⟩ := urlsLoop_append env cookies pre (d :: post) [] ids w w1 StatusOK hpre
  obtain ⟨happ1, _, _⟩ := urlsLoop_append env cookies pre [d] [] ids w w1 StatusOK hpre
  obtain ⟨⟨msg, hmsg⟩, hcut, tail, htrace, htail⟩ := urlsLoop_fail env cookies d post ids w1 hfail
  rw [happ, happ1]
  refine ⟨⟨msg, hmsg⟩, ?_, hcut, tail, ?_, htail⟩
  · intro code jobIDs h
    rw [hmsg] at h
    cases h
  · rw [htrace, hio]

/-- Instance of C3: in a batch of three URLs whose second preset is unknown, the first
document is fetched and submitted, the second is fetched and fails, the third is
neither fetched nor printed, and the response is the error response with status 500. -/
theorem urls_first_failure_witness :
    urls (demoEnv demoCompiled demoFetched) "session=1"
        (.ok ⟨[⟨"http://x/a.pdf", "plain"⟩, ⟨"http://x/b.pdf", "nope"⟩,
          ⟨"http://x/c.pdf", "plain"⟩]⟩) world0 =
      urls (demoEnv demoCompiled demoFetched) "session=1"
        (.ok ⟨[⟨"http://x/a.pdf", "plain"⟩, ⟨"http://x/b.pdf", "nope"⟩]⟩) world0 ∧
      ioTrace (urls (demoEnv demoCompiled demoFetched) "session=1"
        (.ok ⟨[⟨"http://x/a.pdf", "plain"⟩, ⟨"http://x/b.pdf", "nope"⟩,
          ⟨"http://x/c.pdf", "plain"⟩]⟩) world0).2.trace =
        [.fetch "http://x/a.pdf", .submit, .fetch "http://x/b.pdf"] ∧
      (urls (demoEnv demoCompiled demoFetched) "session=1"
        (.ok ⟨[⟨"http://x/a.pdf", "plain"⟩, ⟨"http://x/b.pdf", "nope"⟩,
          ⟨"http://x/c.pdf", "plain"⟩]⟩) world0).1 =
        Response.error 500 "print error: unknown preset nope" :=
  have h := urls_first_failure (demoEnv demoCompiled demoFetched) "session=1"
    [⟨"http://x/a.pdf", "plain"⟩] ⟨"http://x/b.pdf", "nope"⟩ [⟨"http://x/c.pdf", "plain"⟩]
    world0 _ [1] rfl (Or.inr ⟨_, _, 0, .errorString "unknown preset nope", _, rfl, rfl⟩)
  ⟨h.2.2.1, by decide, by decide⟩

end PrintServer
